import Mathlib

/-!
Verification of the watter storefront's client-side cart / wishlist /
configuration-sync model, shallowly embedded from
`src/Appifyours/frontend/lib/services/api_service.dart` (and, where a
definition is only referenced there, modelled from the specification).

Monetary values are embedded as rationals: the source stores them in Dart
doubles, but every claim under scrutiny involves only small decimal literals
whose arithmetic is exact, and the specification itself mandates
decimal/fixed-point arithmetic for displayed totals.
-/

namespace Watter

/-! ## Cart data model (class CartItem, lines 1858-1877) -/

/-- One cart line, embedded from the Dart class `CartItem`: product id, name,
unit price, unit discount price, mutable quantity, optional image. -/
structure CartItem where
  id : String
  name : String
  price : ℚ
  discountPrice : ℚ := 0
  quantity : Int := 1
  image : Option String := none
deriving Repr, DecidableEq

/-- `CartItem.effectivePrice`: the discount price when it is positive,
otherwise the base price (line 1875). -/
def CartItem.effectivePrice (item : CartItem) : ℚ :=
  if item.discountPrice > 0 then item.discountPrice else item.price

/-- `CartItem.totalPrice`: effective price times quantity (line 1876). -/
def CartItem.totalPrice (item : CartItem) : ℚ :=
  item.effectivePrice * (item.quantity : ℚ)

/-! ## CartManager operations (lines 1880-1960)

`CartManager` keeps a private `List<CartItem> _items`; each operation below is
the pure state transformer of the corresponding method (the `notifyListeners`
calls only ping the UI and carry no state). -/

/-- `CartManager.addItem` (lines 1905-1913): `indexWhere` finds the first line
with the same id; if one exists its quantity is incremented by the incoming
item's quantity, otherwise the item is appended.  There is no capacity check
of any kind in this method. -/
def addItem : List CartItem → CartItem → List CartItem
  | [], item => [item]
  | i :: rest, item =>
    if i.id == item.id then
      { i with quantity := i.quantity + item.quantity } :: rest
    else
      i :: addItem rest item

/-- `CartManager.removeItem` (lines 1915-1918): `removeWhere` drops every line
whose id matches. -/
def removeItem (items : List CartItem) (id : String) : List CartItem :=
  items.filter (fun item => !(item.id == id))

/-- `CartManager.updateQuantity` (lines 1920-1924):
`_items.firstWhere((i) => i.id == id)` with no `orElse` throws a `StateError`
when no line matches; a thrown call is modelled as `none`.  When a line
matches, its quantity is overwritten with the argument, unconditionally:
no removal for non-positive quantities and no capacity check. -/
def updateQuantity : List CartItem → String → Int → Option (List CartItem)
  | [], _, _ => none
  | i :: rest, id, q =>
    if i.id == id then some ({ i with quantity := q } :: rest)
    else (updateQuantity rest id q).map (i :: ·)

/-- `PriceUtils.calculateTax` (lines 1848-1850). -/
def calculateTax (subtotal taxRate : ℚ) : ℚ :=
  subtotal * (taxRate / 100)

/-- `CartManager.subtotal` (lines 1935-1937): fold of `totalPrice` over the
lines. -/
def subtotal (items : List CartItem) : ℚ :=
  items.foldl (fun sum item => sum + item.totalPrice) 0

/-- `CartManager.totalDiscount` (lines 1944-1947). -/
def totalDiscount (items : List CartItem) : ℚ :=
  items.foldl
    (fun sum item => sum + (item.price - item.effectivePrice) * (item.quantity : ℚ)) 0

/-- Default of the private field `_gstPercentage` (line 1882). -/
def defaultGstPercentage : ℚ := 18

/-- `CartManager.gstAmount` (lines 1949-1951). -/
def gstAmount (items : List CartItem) (gstPercentage : ℚ) : ℚ :=
  calculateTax (subtotal items) gstPercentage

/-- `CartManager.finalTotal` (lines 1953-1955). -/
def finalTotal (items : List CartItem) (gstPercentage : ℚ) : ℚ :=
  subtotal items + gstAmount items gstPercentage

/-- Modelled from the spec: the cart page reads `_cartManager.totalQuantity`
(line 4338) but no `totalQuantity` getter appears in the `CartManager` class
under `src/`; the spec describes the quantity bound as an aggregate over all
cart lines, so the getter is modelled as the sum of the line quantities. -/
def totalQuantity (items : List CartItem) : Int :=
  items.foldl (fun sum item => sum + item.quantity) 0

/-! ## Cart page quantity controls (lines 4291-4348)

The cart page's per-line minus and plus buttons are the only callers of
`updateQuantity` in the source; each handler receives a line `item` taken from
the current list. -/

/-- The minus button (lines 4294-4305): when the line's quantity is above one,
decrement via `updateQuantity`; otherwise remove the line instead of ever
calling `updateQuantity` with zero. -/
def decrementCartLine (items : List CartItem) (item : CartItem) :
    Option (List CartItem) :=
  if item.quantity > 1 then updateQuantity items item.id (item.quantity - 1)
  else some (removeItem items item.id)

/-- The plus button (lines 4335-4348): increment via `updateQuantity` only
when the aggregate quantity is below 10; otherwise show a snack bar and leave
the cart untouched. -/
def incrementCartLine (items : List CartItem) (item : CartItem) :
    Option (List CartItem) :=
  if totalQuantity items < 10 then updateQuantity items item.id (item.quantity + 1)
  else some items

/-- Product-page quantity selector state helper `_canAddToCart`
(lines 3941-3943): true while the tracked selector quantities sum to less
than 10.  Defined in the source but never called from any code under `src/`. -/
def canAddToCart (productQuantities : List (String × Int)) : Bool :=
  decide (productQuantities.foldl (fun sum p => sum + p.2) 0 < 10)

/-! ## Concrete inputs used by the cart claims -/

/-- A cart line of quantity 6 used to exhibit the missing capacity check. -/
def capItemSix : CartItem :=
  { id := "a", name := "A", price := 1, discountPrice := 0, quantity := 6 }

/-- First line of the worked example: price 10.00, no discount, quantity 2. -/
def exLine1 : CartItem :=
  { id := "p1", name := "P1", price := 10, discountPrice := 0, quantity := 2 }

/-- Second line of the worked example: price 20.00, discount price 15.00,
quantity 1. -/
def exLine2 : CartItem :=
  { id := "p2", name := "P2", price := 20, discountPrice := 15, quantity := 1 }

/-- The worked example's cart. -/
def exCart : List CartItem := [exLine1, exLine2]

/-- A cart line with quantity 1. -/
def oneItemA : CartItem :=
  { id := "a", name := "A", price := 1, discountPrice := 0, quantity := 1 }

/-- A second cart line with quantity 9, so a cart holding both sits exactly at
the aggregate cap. -/
def nineItemB : CartItem :=
  { id := "b", name := "B", price := 1, discountPrice := 0, quantity := 9 }

/-! ## Wishlist data model and WishlistManager (lines 1963-2017) -/

/-- One wishlist entry, embedded from the Dart class `WishlistItem`. -/
structure WishlistItem where
  id : String
  name : String
  price : ℚ
  discountPrice : ℚ := 0
  image : Option String := none
  currencySymbol : String := "$"
deriving Repr, DecidableEq

/-- `WishlistManager.isInWishlist` (lines 2014-2016). -/
def isInWishlist (items : List WishlistItem) (id : String) : Bool :=
  items.any (fun i => i.id == id)

/-- `WishlistManager.addItem` (lines 1993-1998): append the item only when no
entry with its id is already present (the guard `_items.any((i) => i.id ==
item.id)` is the `isInWishlist` predicate inlined). -/
def wAddItem (items : List WishlistItem) (item : WishlistItem) : List WishlistItem :=
  if isInWishlist items item.id then items else items ++ [item]

/-- `WishlistManager.removeItem` (lines 2000-2003): drop every entry with the
given id. -/
def wRemoveItem (items : List WishlistItem) (id : String) : List WishlistItem :=
  items.filter (fun i => !(i.id == id))

/-- Modelled from the spec: `toggleWishlist` does not appear as a single
method in the source under `src/`; the spec defines it as add-if-absent,
remove-if-present, which is modelled here over the source's
`WishlistManager` operations. -/
def toggleWishlist (items : List WishlistItem) (item : WishlistItem) :
    List WishlistItem :=
  if isInWishlist items item.id then wRemoveItem items item.id
  else wAddItem items item

/-- The set-semantics invariant of the wishlist: each product id occurs on at
most one entry. -/
def wNoDupIds (items : List WishlistItem) : Prop :=
  items.Pairwise (fun a b => a.id ≠ b.id)

instance (items : List WishlistItem) : Decidable (wNoDupIds items) := by
  unfold wNoDupIds
  infer_instance

/-- A sample wishlist entry. -/
def wSample : WishlistItem := { id := "a", name := "A", price := 1 }

/-! ## PriceUtils (lines 1813-1855) -/

/-- The character filter performed by
`priceString.replaceAll(RegExp(r'[^d.]'), '')` (line 1822): the character
class `[^d.]`, written without a backslash, matches every character other
than the literal letter `d` and the dot, so the replacement keeps only those
two characters. -/
def regexFilterKeepDDot (s : String) : String :=
  String.mk (s.toList.filter (fun c => c == 'd' || c == '.'))

/-- Digit run to a natural number, most significant first. -/
def digitsToNat (acc : Nat) : List Char → Nat
  | [] => acc
  | c :: cs => digitsToNat (acc * 10 + (c.toNat - '0'.toNat)) cs

/-- The optional exponent suffix of Dart's double grammar:
either nothing, or `e`/`E`, an optional sign and a nonempty digit run ending
the string; on success the base value is scaled by the signed power of ten. -/
def parseExpSuffix (base : ℚ) : List Char → Option ℚ
  | [] => some base
  | e :: rest =>
    if e == 'e' || e == 'E' then
      let signAndRest : Int × List Char :=
        match rest with
        | '+' :: r => (1, r)
        | '-' :: r => (-1, r)
        | r => (1, r)
      let ds := signAndRest.2.takeWhile Char.isDigit
      let trailing := signAndRest.2.dropWhile Char.isDigit
      if ds.isEmpty || !trailing.isEmpty then none
      else some (base * (10 : ℚ) ^ (signAndRest.1 * (digitsToNat 0 ds : Int)))
    else none

/-- The unsigned part of Dart's double grammar:
`Digits ('.' Digits?)? Exponent?` or `'.' Digits Exponent?`.
Strings such as `"."` or `".."`, or any string holding a character outside
the grammar, parse to nothing.  (The `Infinity` and `NaN` forms of the Dart
grammar have no rational value and are not modelled; no input under scrutiny
takes those forms.) -/
def parseUnsignedDouble (cs : List Char) : Option ℚ :=
  let intPart := cs.takeWhile Char.isDigit
  let rest := cs.dropWhile Char.isDigit
  match rest with
  | [] => if intPart.isEmpty then none else some (digitsToNat 0 intPart : ℚ)
  | '.' :: rest2 =>
    let fracPart := rest2.takeWhile Char.isDigit
    let rest3 := rest2.dropWhile Char.isDigit
    if intPart.isEmpty && fracPart.isEmpty then none
    else
      parseExpSuffix
        ((digitsToNat 0 intPart : ℚ) +
          (digitsToNat 0 fracPart : ℚ) / (10 : ℚ) ^ fracPart.length)
        rest3
  | other =>
    if intPart.isEmpty then none
    else parseExpSuffix (digitsToNat 0 intPart : ℚ) other

/-- Dart's `double.tryParse`: optional surrounding whitespace, optional sign,
then the unsigned double grammar; `null` (here `none`) on any other shape. -/
def doubleTryParse (s : String) : Option ℚ :=
  let cs :=
    ((s.toList.dropWhile Char.isWhitespace).reverse.dropWhile
      Char.isWhitespace).reverse
  match cs with
  | '+' :: rest => parseUnsignedDouble rest
  | '-' :: rest => (parseUnsignedDouble rest).map (fun q => -q)
  | rest => parseUnsignedDouble rest

/-- `PriceUtils.parsePrice` (lines 1819-1824): empty string to zero, otherwise
strip with the `[^d.]` character class and `double.tryParse` the remainder,
falling back to zero. -/
def parsePrice (priceString : String) : ℚ :=
  if priceString.isEmpty then 0
  else
    let numericString := regexFilterKeepDDot priceString
    (doubleTryParse numericString).getD 0

/-- Dart `String.contains` applied to a one-character pattern: the character
occurs somewhere in the string. -/
def strHasChar (s : String) (c : Char) : Bool :=
  s.toList.contains c

/-- `PriceUtils.detectCurrency` (lines 1827-1838): first matching currency
symbol, defaulting to the dollar sign. -/
def detectCurrency (priceString : String) : String :=
  if strHasChar priceString '₹' then "₹"
  else if strHasChar priceString '$' then "$"
  else if strHasChar priceString '€' then "€"
  else if strHasChar priceString '£' then "£"
  else if strHasChar priceString '¥' then "¥"
  else if strHasChar priceString '₩' then "₩"
  else if strHasChar priceString '₽' then "₽"
  else if strHasChar priceString '₦' then "₦"
  else if strHasChar priceString '₨' then "₨"
  else "$"

/-! ## Widget resolution (_buildHomeWidgetFromConfig, lines 3124-3791) -/

/-- The render unit a widget descriptor resolves to, one constructor per case
of the source's `switch (name)`; `Catalog View Card` and
`Product Detail Card` share a case body (the dynamic product grid), and the
`default` arm returns `SizedBox.shrink()`, the empty render unit. -/
inductive RenderUnit where
  | headerUnit
  | heroBannerUnit
  | productSearchBarUnit
  | productGridUnit
  | storeInfoUnit
  | imageSliderUnit
  | productDescriptionUnit
  | smallCardUnit
  | empty
deriving Repr, DecidableEq

/-- The widget names carrying a dedicated case in the source's switch. -/
def knownWidgetNames : List String :=
  ["HeaderWidget", "HeroBannerWidget", "ProductSearchBarWidget",
   "Catalog View Card", "Product Detail Card", "StoreInfoWidget",
   "ImageSliderWidget", "ProductDescriptionWidget", "SmallCardWidget"]

/-- The name dispatch of `_buildHomeWidgetFromConfig` (lines 3130-3790),
abstracted to which render unit each descriptor name produces. -/
def buildHomeWidgetFromConfig (name : String) : RenderUnit :=
  if name == "HeaderWidget" then .headerUnit
  else if name == "HeroBannerWidget" then .heroBannerUnit
  else if name == "ProductSearchBarWidget" then .productSearchBarUnit
  else if name == "Catalog View Card" || name == "Product Detail Card" then
    .productGridUnit
  else if name == "StoreInfoWidget" then .storeInfoUnit
  else if name == "ImageSliderWidget" then .imageSliderUnit
  else if name == "ProductDescriptionWidget" then .productDescriptionUnit
  else if name == "SmallCardWidget" then .smallCardUnit
  else .empty

/-! ## Configuration documents and the home page state (lines 2898-3013)

The configuration payload of `/api/get-form` carries pages, each with
page-level properties and a widget list; widgets carry a name and a property
bag from which only the `productCards` list is consumed by the reload path.
Colour parsing (`_colorFromHex`) is presentation-only and kept as the raw
optional hex string. -/

/-- One product map as carried in a widget's `productCards` and consumed by
the search filter (`productName`, `price`, `discountPrice`, all stringly). -/
structure ProductMap where
  productName : String
  price : String
  discountPrice : String
deriving Repr, DecidableEq

/-- One widget descriptor of a configuration page. -/
structure WidgetData where
  name : String
  productCards : List ProductMap := []
deriving Repr, DecidableEq

/-- One configuration page: page-level properties (only the background colour
is consumed) and the widget list. -/
structure PageData where
  backgroundColor : Option String := none
  widgets : List WidgetData := []
deriving Repr, DecidableEq

/-- The decoded body of a 200 response from the config fetch endpoint. -/
structure ConfigResponse where
  success : Bool
  pages : List PageData := []
  storeInfo : List (String × String) := []
  designSettings : List (String × String) := []
deriving Repr, DecidableEq

/-- How one configuration fetch ends, as distinguished by
`_loadDynamicAppConfig`: a decoded 200 body, a non-200 status (no handling —
the method falls through), or a thrown error (the `catch` arm). -/
inductive FetchOutcome where
  | ok (resp : ConfigResponse)
  | httpError (statusCode : Nat)
  | thrown
deriving Repr, DecidableEq

/-- The session-local state of `_HomePageState` (lines 2898-2912), restricted
to the fields the configuration reload path and the claims touch. -/
structure HomePageState where
  cartItems : List CartItem
  wishlistItems : List WishlistItem
  searchQuery : String
  filteredProducts : List ProductMap
  dynamicProductCards : List ProductMap
  homeWidgets : List WidgetData
  dynamicStoreInfo : List (String × String)
  dynamicDesignSettings : List (String × String)
  pageBackgroundColor : Option String
  isLoading : Bool
deriving Repr

/-- Whether the second character list starts the first. -/
def startsWithChars : List Char → List Char → Bool
  | _, [] => true
  | [], _ :: _ => false
  | c :: cs, d :: ds => c == d && startsWithChars cs ds

/-- Whether `sub` occurs contiguously inside the second list (Dart
`String.contains` on substrings; an empty pattern always matches). -/
def hasSubChars (sub : List Char) : List Char → Bool
  | [] => sub.isEmpty
  | c :: cs => startsWithChars (c :: cs) sub || hasSubChars sub cs

/-- Dart `String.contains` with a substring pattern. -/
def strContainsSub (s sub : String) : Bool :=
  hasSubChars sub.toList s.toList

/-- Dart `String.toLowerCase`, realized characterwise. -/
def strToLower (s : String) : String :=
  String.mk (s.toList.map Char.toLower)

/-- Whether a product matches a search query (lines 3038-3043): the lowercased
query occurs in the lowercased name, price or discount price. -/
def productMatchesQuery (p : ProductMap) (query : String) : Bool :=
  let searchLower := strToLower query
  strContainsSub (strToLower p.productName) searchLower ||
  strContainsSub (strToLower p.price) searchLower ||
  strContainsSub (strToLower p.discountPrice) searchLower

/-- `_filterProducts` (lines 3032-3047): store the query and recompute the
filtered product list from the current dynamic product cards. -/
def filterProducts (st : HomePageState) (query : String) : HomePageState :=
  { st with
    searchQuery := query
    filteredProducts :=
      if query.isEmpty then st.dynamicProductCards
      else st.dynamicProductCards.filter (fun p => productMatchesQuery p query) }

/-- The global `productCards` fallback list, initialized empty (line 2030). -/
def productCardsStatic : List ProductMap := []

/-- Product extraction of the reload path (lines 2972-2981): concatenate the
`productCards` of every widget named `ProductGridWidget`, `Catalog View Card`
or `Product Detail Card`. -/
def extractProducts (widgets : List WidgetData) : List ProductMap :=
  widgets.foldl
    (fun acc w =>
      if w.name == "ProductGridWidget" || w.name == "Catalog View Card" ||
          w.name == "Product Detail Card" then
        acc ++ w.productCards
      else acc) []

/-- The widget sort of lines 2984-2990, whose comparator moves `HeaderWidget`
entries before all others (the source uses `List.sort`, whose order among
equal elements is unspecified; the model realizes the comparator's effect as
the stable partition). -/
def sortHeaderFirst (ws : List WidgetData) : List WidgetData :=
  ws.filter (fun w => w.name == "HeaderWidget") ++
    ws.filter (fun w => !(w.name == "HeaderWidget"))

/-- `_loadDynamicAppConfig` (lines 2940-3013) as a state transformer over the
fetch outcome.  On a 200 body with `success == true` the `setState` block
replaces the dynamic product cards (falling back to the static global when
extraction finds none), re-applies the current search filter, and replaces
widgets, store info, design settings, page background and the loading flag.
A 200 body with `success != true`, or a non-200 status, runs no `setState`
at all; a thrown error only clears the loading flag. -/
def loadDynamicAppConfig (st : HomePageState) (outcome : FetchOutcome) :
    HomePageState :=
  match outcome with
  | .ok resp =>
    if resp.success then
      let extractedWidgets :=
        match resp.pages with
        | [] => []
        | p :: _ => p.widgets
      let extractedProducts := extractProducts extractedWidgets
      let sortedWidgets := sortHeaderFirst extractedWidgets
      let st1 := filterProducts
        { st with
          dynamicProductCards :=
            if !extractedProducts.isEmpty then extractedProducts
            else productCardsStatic }
        st.searchQuery
      { st1 with
        homeWidgets := sortedWidgets
        dynamicStoreInfo := resp.storeInfo
        dynamicDesignSettings := resp.designSettings
        pageBackgroundColor :=
          match resp.pages with
          | [] => none
          | p :: _ => p.backgroundColor
        isLoading := false }
    else st
  | .httpError _ => st
  | .thrown => { st with isLoading := false }

/-! ## Realtime event dispatch (ApiService, lines 1597-1685) -/

/-- What the socket listener registered for an event kind does, embedded from
`ApiService._setupSocketListeners`: seven kinds forward their payload into the
`realTimeUpdates` stream, `room-joined` and `test-response` only log, and no
listener exists for any other kind (the connect/disconnect lifecycle
callbacks, which only flip the connection flag, are not update events). -/
inductive SocketHandlerAction where
  | forwardUpdate
  | logOnly
  | ignored
deriving Repr, DecidableEq

/-- The listener table of `_setupSocketListeners` (lines 1625-1674). -/
def socketHandlerFor (kind : String) : SocketHandlerAction :=
  if kind == "room-joined" then .logOnly
  else if kind == "test-response" then .logOnly
  else if kind == "dynamic-update" then .forwardUpdate
  else if kind == "admin-specific-update" then .forwardUpdate
  else if kind == "splash-screen" then .forwardUpdate
  else if kind == "home-page" then .forwardUpdate
  else if kind == "app-info" then .forwardUpdate
  else if kind == "test-update" then .forwardUpdate
  else if kind == "configuration-update" then .forwardUpdate
  else .ignored

/-- The allow-list of the claim: the event kinds that are to trigger a full
configuration refetch. -/
def refetchKinds : List String :=
  ["dynamic-update", "home-page", "configuration-update",
   "admin-specific-update", "splash-screen", "app-info", "test-update"]

/-- The coordinator's view: the stored configuration plus a count of issued
refetches. -/
structure SyncState where
  config : Option ConfigResponse
  fetchesIssued : Nat
deriving Repr, DecidableEq

/-- An initial coordinator state with no document and no fetches. -/
def syncInit : SyncState := { config := none, fetchesIssued := 0 }

/-- Modelled from the spec: the subscriber that consumes `ApiService`'s
`realTimeUpdates` stream and re-invokes the configuration fetch is not in the
code under `src/` (the stream is exposed at line 49 but never listened to
there); the spec says every forwarded event re-invokes `ConfigFetcher.fetch`.
An incoming realtime event of the given kind thus passes through the source's
listener table: a forwarding kind issues one refetch, every other kind leaves
the coordinator state untouched. -/
def onRealtimeEvent (st : SyncState) (kind : String) : SyncState :=
  match socketHandlerFor kind with
  | .forwardUpdate => { st with fetchesIssued := st.fetchesIssued + 1 }
  | _ => st

/-! ## The generated app's own realtime pipeline (lines 2128-2206) -/

/-- The observable effect of `loadDynamicProductData` (lines 2128-2181) at
issue time: the leading `setState` raises the loading flag and one HTTP GET
is issued.  The function performs no in-flight check of any kind. -/
structure AppSyncState where
  isLoading : Bool
  fetchesIssued : Nat
  fetchesCompleted : Nat
deriving Repr, DecidableEq

/-- An app-sync state with one refetch already in flight. -/
def appSyncBusy : AppSyncState :=
  { isLoading := true, fetchesIssued := 1, fetchesCompleted := 0 }

/-- Issuing `loadDynamicProductData`: raise the loading flag and count one
more fetch in flight. -/
def loadDynamicProductDataStart (st : AppSyncState) : AppSyncState :=
  { st with isLoading := true, fetchesIssued := st.fetchesIssued + 1 }

/-- The types whose case arms trigger a refetch in the listener of
`startRealTimeUpdates` (lines 2198-2203). -/
def qualifyingUpdateType (ty : String) : Bool :=
  strToLower ty == "home-page" || strToLower ty == "dynamic-update"

/-- The update listener of `startRealTimeUpdates` (lines 2192-2204): lowercase
the update's type and call `loadDynamicProductData` on `home-page` or
`dynamic-update`, unconditionally — in particular with no check whether a
refetch is already in flight. -/
def handleRealtimeUpdate (st : AppSyncState) (ty : String) : AppSyncState :=
  if qualifyingUpdateType ty then loadDynamicProductDataStart st
  else st

/-- An idle app-sync state: nothing in flight, nothing issued. -/
def appSyncIdle : AppSyncState :=
  { isLoading := false, fetchesIssued := 0, fetchesCompleted := 0 }

end Watter

namespace Watter

/-! ## Theorems for the cart claims -/

/-- C1: the claim says every `addToCart` sequence keeps the aggregate quantity
at or below 10, the crossing call being rejected with `CapacityExceeded`.
`CartManager.addItem` checks nothing: adding a quantity-6 line to the empty
cart twice drives the aggregate to 12 and the second call still mutates the
cart (the line's quantity doubles), with no error value anywhere in the
method.  This evaluates the embedded code at that failing input. -/
theorem c1_addItem_exceeds_cap :
    totalQuantity (addItem (addItem [] capItemSix) capItemSix) = 12 ∧
    addItem (addItem [] capItemSix) capItemSix =
      [{ capItemSix with quantity := 12 }] := by
  decide

/-- C2: on the cart `[price 10, discount 0, qty 2; price 20, discount 15,
qty 1]` with the default tax rate 18, the derived values are subtotal 35,
discount total 5, tax 6.30 and total 41.30, computed by the embedded
`CartManager` getters. -/
theorem c2_derived_values :
    subtotal exCart = 35 ∧
    totalDiscount exCart = 5 ∧
    gstAmount exCart defaultGstPercentage = 63 / 10 ∧
    finalTotal exCart defaultGstPercentage = 413 / 10 := by
  norm_num [exCart, exLine1, exLine2, subtotal, totalDiscount, gstAmount,
    finalTotal, calculateTax, defaultGstPercentage, CartItem.totalPrice,
    CartItem.effectivePrice]

/-- C9 counterexample: on the one-line cart `[id "a", qty 1]`,
`updateQuantity "a" 0` keeps the line (quantity 0) rather than removing it,
and `updateQuantity "a" 50` succeeds with quantity 50 instead of rejecting a
value above the cap. -/
theorem c9_updateQuantity_counterexample :
    updateQuantity [oneItemA] "a" 0 ≠ some (removeItem [oneItemA] "a") ∧
    updateQuantity [oneItemA] "a" 50 = some [{ oneItemA with quantity := 50 }] := by
  decide

/-- C9 amended: `updateQuantity` itself overwrites the quantity
unconditionally and never removes a line; the remove-at-zero and cap
behaviours live in the cart page controls: the minus button removes the line
(never calling `updateQuantity` with a non-positive value) when its quantity
is at most 1, and the plus button leaves the cart unchanged when the
aggregate quantity has reached 10. -/
theorem c9_quantity_controls (items : List CartItem) (item : CartItem)
    (hq : item.quantity ≤ 1) (hcap : 10 ≤ totalQuantity items) :
    decrementCartLine items item = some (removeItem items item.id) ∧
    incrementCartLine items item = some items ∧
    (∀ q xs, updateQuantity items item.id q = some xs → xs.length = items.length) := by
  refine ⟨?_, ?_, ?_⟩
  · have h : ¬ item.quantity > 1 := by omega
    simp [decrementCartLine, h]
  · have h : ¬ totalQuantity items < 10 := by omega
    simp [incrementCartLine, h]
  · intro q xs hxs
    clear hq hcap
    induction items generalizing xs with
    | nil => simp [updateQuantity] at hxs
    | cons i rest ih =>
      by_cases h : i.id == item.id
      · simp [updateQuantity, h] at hxs
        simp [← hxs]
      · simp [updateQuantity, h] at hxs
        obtain ⟨ys, hys, rfl⟩ := hxs
        simp [ih ys hys]

/-- C9 witness: the amended statement applied to the concrete cart
`[qty 1 line "a", qty 9 line "b"]`, which sits exactly at the cap. -/
theorem c9_quantity_controls_witness :
    decrementCartLine [oneItemA, nineItemB] oneItemA =
      some (removeItem [oneItemA, nineItemB] oneItemA.id) ∧
    incrementCartLine [oneItemA, nineItemB] oneItemA = some [oneItemA, nineItemB] :=
  ⟨(c9_quantity_controls [oneItemA, nineItemB] oneItemA (by decide) (by decide)).1,
   (c9_quantity_controls [oneItemA, nineItemB] oneItemA (by decide) (by decide)).2.1⟩

/-- C10: `updateQuantity` throws (modelled `none`) exactly when no cart line
carries the requested id, so the operation is partial and safe only under the
precondition that the id is present; in particular an absent id never yields
a normal result, let alone a no-op. -/
theorem c10_updateQuantity_partial (items : List CartItem) (id : String) (q : Int) :
    updateQuantity items id q = none ↔ items.all (fun i => !(i.id == id)) := by
  induction items with
  | nil => simp [updateQuantity]
  | cons i rest ih =>
    by_cases h : i.id == id
    · simp [updateQuantity, h]
    · simp [updateQuantity, h, ih]

/-! ## Wishlist lemmas and the toggle claim -/

/-- Removing an id leaves no entry carrying it. -/
theorem isIn_wRemove_self (items : List WishlistItem) (id : String) :
    isInWishlist (wRemoveItem items id) id = false := by
  simp only [isInWishlist, wRemoveItem, List.any_eq_false]
  intro x hx
  rcases List.mem_filter.mp hx with ⟨-, hkeep⟩
  simpa using hkeep

/-- Removing one id does not change membership of any other id. -/
theorem isIn_wRemove_other (items : List WishlistItem) (id id' : String)
    (h : id ≠ id') : isInWishlist (wRemoveItem items id) id' = isInWishlist items id' := by
  induction items with
  | nil => rfl
  | cons i rest ih =>
    by_cases h1 : i.id == id
    · have h2 : (i.id == id') = false := by
        rw [beq_iff_eq] at h1
        simp [h1, h]
      simp [isInWishlist, wRemoveItem, List.filter, h1, h2] at ih ⊢
      exact ih
    · simp [isInWishlist, wRemoveItem, List.filter, h1] at ih ⊢
      by_cases h2 : i.id == id'
      · simp [h2]
      · simp [h2, ih]

/-- Removing an absent id is the identity. -/
theorem wRemove_of_not_in (items : List WishlistItem) (id : String)
    (h : isInWishlist items id = false) : wRemoveItem items id = items := by
  induction items with
  | nil => rfl
  | cons i rest ih =>
    simp only [isInWishlist, List.any_cons, Bool.or_eq_false_iff] at h
    simp [wRemoveItem, List.filter, h.1] at ih ⊢
    exact ih (by simpa [isInWishlist] using h.2)

/-- C8: toggling the wishlist twice with the same item restores the original
membership of every product id, and a single toggle preserves the invariant
that each product id occurs on at most one entry. -/
theorem c8_toggle_involution (items : List WishlistItem) (item : WishlistItem) :
    (∀ id, isInWishlist (toggleWishlist (toggleWishlist items item) item) id =
      isInWishlist items id) ∧
    (wNoDupIds items → wNoDupIds (toggleWishlist items item)) := by
  constructor
  · intro id
    by_cases h : isInWishlist items item.id = true
    · have h1 : toggleWishlist items item = wRemoveItem items item.id := by
        simp [toggleWishlist, h]
      have h2 : isInWishlist (wRemoveItem items item.id) item.id = false :=
        isIn_wRemove_self items item.id
      rw [h1]
      have h3 : toggleWishlist (wRemoveItem items item.id) item =
          wRemoveItem items item.id ++ [item] := by
        simp [toggleWishlist, wAddItem, h2]
      rw [h3]
      by_cases hid : item.id = id
      · subst hid
        simp only [isInWishlist, List.any_append, List.any_cons, List.any_nil,
          BEq.refl, Bool.true_or, Bool.or_true]
        exact h.symm
      · simp only [isInWishlist, List.any_append, List.any_cons, List.any_nil]
        have h4 : (item.id == id) = false := by simpa using hid
        have h5 := isIn_wRemove_other items item.id id hid
        simp only [isInWishlist] at h5
        simp [h4, h5]
    · rw [Bool.not_eq_true] at h
      have h1 : toggleWishlist items item = items ++ [item] := by
        simp [toggleWishlist, wAddItem, h]
      have h2 : isInWishlist (items ++ [item]) item.id = true := by
        simp [isInWishlist, List.any_append]
      have h3 : toggleWishlist (items ++ [item]) item =
          wRemoveItem (items ++ [item]) item.id := by
        simp [toggleWishlist, h2]
      have h4 : wRemoveItem (items ++ [item]) item.id = items := by
        have e1 : wRemoveItem (items ++ [item]) item.id =
            wRemoveItem items item.id ++ wRemoveItem [item] item.id := by
          simp [wRemoveItem, List.filter_append]
        rw [e1, wRemove_of_not_in items item.id h]
        simp [wRemoveItem]
      rw [h1, h3, h4]
  · intro hinv
    unfold wNoDupIds at hinv ⊢
    unfold toggleWishlist
    by_cases h : isInWishlist items item.id = true
    · simp only [h, if_true]
      unfold wRemoveItem
      exact hinv.filter _
    · rw [Bool.not_eq_true] at h
      simp only [h, Bool.false_eq_true, if_false]
      unfold wAddItem
      simp only [h, Bool.false_eq_true, if_false]
      rw [List.pairwise_append]
      refine ⟨hinv, List.pairwise_singleton _ _, ?_⟩
      intro a ha b hb
      rcases List.mem_singleton.mp hb with rfl
      simp only [isInWishlist, List.any_eq_false] at h
      have := h a ha
      intro hcontra
      exact this (by simp [hcontra])

/-- C8 witness: the toggle claim instantiated on a one-entry wishlist and the
entry itself. -/
theorem c8_toggle_involution_witness :
    isInWishlist (toggleWishlist (toggleWishlist [wSample] wSample) wSample) "a" =
      isInWishlist [wSample] "a" ∧
    wNoDupIds (toggleWishlist [wSample] wSample) :=
  ⟨(c8_toggle_involution [wSample] wSample).1 "a",
   (c8_toggle_involution [wSample] wSample).2 (by decide)⟩

/-! ## Price parsing claim -/

/-- C3: the claim says parsing returns the numeric amount of a parseable
price string.  The regular expression in `parsePrice` is `[^d.]`, missing
the backslash of `\d`, so the replacement keeps only the letters `d` and the
dots and strips every digit: `"$10.99"` filters to `".."`, which
`double.tryParse` rejects, and the zero fallback is returned — likewise for
the plain `"10.99"`.  The currency fallback itself behaves as claimed. -/
theorem c3_parsePrice_strips_digits :
    regexFilterKeepDDot "$10.99" = "." ∧
    parsePrice "$10.99" = 0 ∧
    parsePrice "10.99" = 0 ∧
    detectCurrency "10.99" = "$" := by
  refine ⟨by decide, by decide, by decide, by decide⟩

/-! ## Widget resolution claim -/

/-- C7: a descriptor whose name is outside the known widget set resolves to
the empty render unit; resolution is a total function of the name. -/
theorem c7_unknown_widget_resolves_empty (name : String)
    (h : name ∉ knownWidgetNames) :
    buildHomeWidgetFromConfig name = RenderUnit.empty := by
  simp only [knownWidgetNames, List.mem_cons, List.not_mem_nil, or_false,
    not_or] at h
  obtain ⟨h1, h2, h3, h4, h5, h6, h7, h8, h9⟩ := h
  simp [buildHomeWidgetFromConfig, h1, h2, h3, h4, h5, h6, h7, h8, h9]

/-- C7 witness: the name `"UnknownWidget"` resolves to the empty render
unit. -/
theorem c7_unknown_widget_witness :
    buildHomeWidgetFromConfig "UnknownWidget" = RenderUnit.empty :=
  c7_unknown_widget_resolves_empty "UnknownWidget" (by decide)

/-! ## Realtime allow-list claim -/

/-- C4: a realtime event triggers a configuration refetch exactly when its
kind is in the allow-list of seven update kinds, and an event of any other
kind leaves the coordinator state — the stored configuration included —
unchanged. -/
theorem c4_refetch_allowlist (st : SyncState) (kind : String) :
    ((onRealtimeEvent st kind).fetchesIssued = st.fetchesIssued + 1 ↔
      kind ∈ refetchKinds) ∧
    (kind ∉ refetchKinds → onRealtimeEvent st kind = st) := by
  have hmem : socketHandlerFor kind = SocketHandlerAction.forwardUpdate ↔
      kind ∈ refetchKinds := by
    unfold socketHandlerFor refetchKinds
    split_ifs with h1 h2 h3 h4 h5 h6 h7 h8 h9 <;> simp_all [beq_iff_eq]
  constructor
  · rw [← hmem]
    unfold onRealtimeEvent
    cases hsf : socketHandlerFor kind <;> simp [hsf]
  · intro hk
    have hne : socketHandlerFor kind ≠ SocketHandlerAction.forwardUpdate :=
      fun hc => hk (hmem.mp hc)
    unfold onRealtimeEvent
    cases hsf : socketHandlerFor kind <;>
      first
        | exact absurd hsf hne
        | rfl

/-- C4 witness: the unknown kind `"foo"` leaves the initial coordinator state
unchanged, while `"dynamic-update"` issues a refetch. -/
theorem c4_refetch_allowlist_witness :
    onRealtimeEvent syncInit "foo" = syncInit ∧
    (onRealtimeEvent syncInit "dynamic-update").fetchesIssued =
      syncInit.fetchesIssued + 1 :=
  ⟨(c4_refetch_allowlist syncInit "foo").2 (by decide),
   (c4_refetch_allowlist syncInit "dynamic-update").1.mpr (by decide)⟩

/-! ## Coalescing claim -/

/-- C5 counterexample: three `dynamic-update` events arriving with no refetch
completion in between (the trace holds no completion step, and
`fetchesCompleted` stays 0) issue three refetches, not the single refetch the
claim requires. -/
theorem c5_three_events_three_fetches :
    (List.foldl handleRealtimeUpdate appSyncIdle
      ["dynamic-update", "dynamic-update", "dynamic-update"]).fetchesIssued = 3 ∧
    (List.foldl handleRealtimeUpdate appSyncIdle
      ["dynamic-update", "dynamic-update", "dynamic-update"]).fetchesCompleted = 0 ∧
    (List.foldl handleRealtimeUpdate appSyncIdle
      ["dynamic-update", "dynamic-update", "dynamic-update"]).fetchesIssued ≠ 1 := by
  refine ⟨by decide, by decide, by decide⟩

/-- C5 amended: the listener performs no coalescing and consults no in-flight
state: over any event trace, every qualifying event issues its own refetch,
so the number of issued refetches grows by exactly the number of qualifying
events — in particular one event issues one refetch and three events
arriving before the first refetch completes issue three. -/
theorem c5_one_fetch_per_qualifying_event (st : AppSyncState) (evs : List String) :
    (List.foldl handleRealtimeUpdate st evs).fetchesIssued =
      st.fetchesIssued + (evs.filter qualifyingUpdateType).length := by
  induction evs generalizing st with
  | nil => simp
  | cons e rest ih =>
    simp only [List.foldl_cons, List.filter_cons]
    by_cases h : qualifyingUpdateType e
    · rw [ih]
      simp [handleRealtimeUpdate, h, loadDynamicProductDataStart]
      omega
    · rw [ih]
      simp [handleRealtimeUpdate, h]

/-! ## Frame claim: configuration reload and session-local state -/

/-- C6: a configuration fetch-and-replace, whatever its outcome, never
changes the cart lines, the wishlist entries or the current search query of
the page state. -/
theorem c6_config_reload_preserves_local_state (st : HomePageState)
    (outcome : FetchOutcome) :
    (loadDynamicAppConfig st outcome).cartItems = st.cartItems ∧
    (loadDynamicAppConfig st outcome).wishlistItems = st.wishlistItems ∧
    (loadDynamicAppConfig st outcome).searchQuery = st.searchQuery := by
  rcases outcome with resp | code | _
  · by_cases h : resp.success <;>
      simp [loadDynamicAppConfig, filterProducts, h]
  · simp [loadDynamicAppConfig]
  · simp [loadDynamicAppConfig]

end Watter
